import Mathlib

/-!
Shallow embedding of `pkg/model/api_loadbalancer.go` (kops), the builder that
emits the API load balancer task and its supporting security-group tasks.

Go maps have a randomized iteration order; the loop
`for zone, subnets := range subnetsByZone` is therefore modelled by an explicit
`zoneOrder : List String` parameter of `Build`, constrained in theorems to be a
permutation of the set of zone keys (`zonesOf`).  Everything else in `Build` is
a deterministic function of the builder's inputs.
-/

namespace KopsALB

/-- Constant `kops.SubnetTypePublic` (string-typed enum in the kops API). -/
def SubnetTypePublic : String := "Public"

/-- Constant `kops.SubnetTypeUtility`. -/
def SubnetTypeUtility : String := "Utility"

/-- Constant `kops.SubnetTypePrivate`. -/
def SubnetTypePrivate : String := "Private"

/-- Constant `kops.LoadBalancerTypePublic`. -/
def LoadBalancerTypePublic : String := "Public"

/-- Constant `kops.LoadBalancerTypeInternal`. -/
def LoadBalancerTypeInternal : String := "Internal"

/-- Embedding of `kops.ClusterSubnetSpec` (the fields this builder reads). -/
structure ClusterSubnetSpec where
  name : String
  zone : String
  type : String
deriving DecidableEq, Repr

/-- Embedding of `kops.LoadBalancerAccessSpec`: the `Type` field and the
optional `IdleTimeoutSeconds` override. -/
structure LoadBalancerAccessSpec where
  type : String
  idleTimeoutSeconds : Option Int
deriving DecidableEq, Repr

/-- Embedding of a master instance group: its object name and the subnet names
listed in `ig.Spec.Subnets`. -/
structure InstanceGroup where
  name : String
  subnets : List String
deriving DecidableEq, Repr

/-- Embedding of `awstasks.LoadBalancerHealthCheck`. -/
structure LoadBalancerHealthCheck where
  target : String
  timeout : Int
  interval : Int
  healthyThreshold : Int
  unhealthyThreshold : Int
deriving DecidableEq, Repr

/-- Embedding of `awstasks.LoadBalancer` (the fields this builder sets).
Links (`LinkToSubnet`, `LinkToELBSecurityGroup`) are modelled as the names the
links carry. -/
structure LoadBalancerTask where
  name : String
  loadBalancerName : String
  securityGroups : List String
  subnets : List String
  listeners : List (String × Int)
  healthCheck : LoadBalancerHealthCheck
  idleTimeout : Int
  scheme : Option String
deriving DecidableEq, Repr

/-- Embedding of `awstasks.SecurityGroup` (the fields this builder sets). -/
structure SecurityGroupTask where
  name : String
  vpc : String
  description : String
  removeExtraRules : List String
deriving DecidableEq, Repr

/-- Embedding of `awstasks.SecurityGroupRule` (the fields this builder sets);
pointer fields that the source leaves unset are `none`. -/
structure SecurityGroupRuleTask where
  name : String
  securityGroup : String
  egress : Option Bool
  cidr : Option String
  sourceGroup : Option String
  fromPort : Option Int
  toPort : Option Int
  protocol : Option String
deriving DecidableEq, Repr

/-- Embedding of `awstasks.LoadBalancerAttachment`. -/
structure LoadBalancerAttachmentTask where
  name : String
  loadBalancer : String
  autoscalingGroup : String
deriving DecidableEq, Repr

/-- A task added to the `fi.ModelBuilderContext` by this builder. -/
inductive Task where
  | loadBalancer : LoadBalancerTask → Task
  | securityGroup : SecurityGroupTask → Task
  | securityGroupRule : SecurityGroupRuleTask → Task
  | loadBalancerAttachment : LoadBalancerAttachmentTask → Task
deriving DecidableEq, Repr

/-- Embedding of `APILoadBalancerBuilder` together with the parts of its
`KopsModelContext` that `Build` reads.  The naming/link helpers
(`UseLoadBalancerForAPI`, `ClusterName`, `GetELBName32`, `ELBSecurityGroupName`,
`LinkToVPC`, `LinkToSecurityGroup`, `LinkToELB`, `LinkToAutoscalingGroup`) are
not part of this source file; modelled from the spec as fixed, deterministic
values carried by the builder (the spec treats them as out-of-scope helpers that
derive stable names from stable identifiers). -/
structure APILoadBalancerBuilder where
  useLoadBalancerForAPI : Bool
  loadBalancer : Option LoadBalancerAccessSpec
  subnets : List ClusterSubnetSpec
  kubernetesAPIAccess : List String
  masterInstanceGroups : List InstanceGroup
  clusterName : String
  elbName32 : String
  elbSecurityGroupName : String
  masterSecurityGroupName : String
  vpcName : String
  elbLinkName : String
  autoscalingGroupName : String → String

/-- The set `migSubnets` built in `chooseBestSubnetForELB`: all subnet names
attached to any master instance group (membership-only use, so a list models
the string set). -/
def APILoadBalancerBuilder.migSubnets (b : APILoadBalancerBuilder) : List String :=
  b.masterInstanceGroups.foldr (fun ig acc => ig.subnets ++ acc) []

/-- The score computed in the loop of `chooseBestSubnetForELB`:
plus 1 if the subnet name is in `migSubnets`, plus 1 if its type is Utility. -/
def subnetScore (migSubnets : List String) (subnet : ClusterSubnetSpec) : Nat :=
  (if subnet.name ∈ migSubnets then 1 else 0)
    + (if subnet.type = SubnetTypeUtility then 1 else 0)

/-- Embedding of the `scoredSubnet` struct. -/
structure scoredSubnet where
  score : Nat
  subnet : ClusterSubnetSpec
deriving DecidableEq, Repr

/-- Lexicographic strict comparison of code-point lists, the embedding of Go's
bytewise string comparison `<` (on valid UTF-8, byte order and code-point order
agree). -/
def charListLtB : List Char → List Char → Bool
  | _, [] => false
  | [], _ :: _ => true
  | a :: as, b :: bs =>
    if a.toNat < b.toNat then true
    else if b.toNat < a.toNat then false
    else charListLtB as bs

/-- Go string comparison `s₁ < s₂`, on the underlying character data. -/
def strLtB (a b : String) : Bool := charListLtB a.data b.data

/-- Embedding of `ByScoreDescending.Less` (Go `sort.Interface`): element `a`
sorts before `b` iff `a` has the strictly higher score, ties broken by
ascending subnet name. -/
def scoredLess (a b : scoredSubnet) : Bool :=
  if a.score ≠ b.score then !(decide (a.score < b.score))
  else strLtB a.subnet.name b.subnet.name

/-- The non-strict order guaranteed by `sort.Sort` on `ByScoreDescending`:
`a` may appear no later than `b` iff `Less b a` is false. -/
def scoredLE (a b : scoredSubnet) : Prop := scoredLess b a = false

instance : DecidableRel scoredLE := fun a b =>
  inferInstanceAs (Decidable (scoredLess b a = false))

/-- The scored list built by `chooseBestSubnetForELB` before sorting, in the
order of the candidate list. -/
def scoredSubnetsOf (b : APILoadBalancerBuilder) (subnets : List ClusterSubnetSpec) :
    List scoredSubnet :=
  subnets.map (fun s => { score := subnetScore b.migSubnets s, subnet := s })

/-- The scored list after `sort.Sort(ByScoreDescending((scoredSubnets)))`.
Go's sort only guarantees a `scoredLE`-sorted permutation; `scoredLE` is a
total order whose ties are exactly equal (score, name) pairs, so on the
name-deduplicated inputs the builder supplies, every conforming sort returns
this list. -/
def sortedScoredSubnets (b : APILoadBalancerBuilder) (subnets : List ClusterSubnetSpec) :
    List scoredSubnet :=
  (scoredSubnetsOf b subnets).insertionSort scoredLE

/-- Embedding of `chooseBestSubnetForELB`: nil on an empty candidate list, the
sole element on a singleton, otherwise the head of the score-sorted list. -/
def APILoadBalancerBuilder.chooseBestSubnetForELB (b : APILoadBalancerBuilder)
    (zone : String) (subnets : List ClusterSubnetSpec) : Option ClusterSubnetSpec :=
  match subnets with
  | [] => none
  | [s] => some s
  | _ :: _ :: _ => (sortedScoredSubnets b subnets).head?.map scoredSubnet.subnet

/-- True iff the subnet type is one of the three recognized by the subnet
switch in `Build` (Public, Utility, Private). -/
def subnetTypeKnown (s : ClusterSubnetSpec) : Bool :=
  decide (s.type = SubnetTypePublic) || decide (s.type = SubnetTypeUtility)
    || decide (s.type = SubnetTypePrivate)

/-- True iff the subnet survives the switch in `Build` for the given
load-balancer type: Public/Utility subnets only for a Public load balancer,
Private subnets only for an Internal one. -/
def subnetCompatible (lbType : String) (s : ClusterSubnetSpec) : Bool :=
  ((decide (s.type = SubnetTypePublic) || decide (s.type = SubnetTypeUtility))
      && decide (lbType = LoadBalancerTypePublic))
    || (decide (s.type = SubnetTypePrivate) && decide (lbType = LoadBalancerTypeInternal))

/-- Embedding of the subnet-partitioning loop in `Build` (lines 63-83): keeps
the subnets destined for `subnetsByZone` in source order, failing on the first
subnet whose type is not recognized. -/
def filterSubnetsForLB (lbType : String) :
    List ClusterSubnetSpec → Except String (List ClusterSubnetSpec)
  | [] => Except.ok []
  | subnet :: rest =>
    if subnet.type = SubnetTypePublic ∨ subnet.type = SubnetTypeUtility then
      if lbType ≠ LoadBalancerTypePublic then
        filterSubnetsForLB lbType rest
      else
        match filterSubnetsForLB lbType rest with
        | Except.ok r => Except.ok (subnet :: r)
        | Except.error e => Except.error e
    else if subnet.type = SubnetTypePrivate then
      if lbType ≠ LoadBalancerTypeInternal then
        filterSubnetsForLB lbType rest
      else
        match filterSubnetsForLB lbType rest with
        | Except.ok r => Except.ok (subnet :: r)
        | Except.error e => Except.error e
    else
      Except.error ("subnet \"" ++ subnet.name ++ "\" had unknown type \"" ++ subnet.type ++ "\"")

/-- The key set of the Go map `subnetsByZone`: the zones occurring in the kept
subnet list, each once. -/
def zonesOf (l : List ClusterSubnetSpec) : List String :=
  (l.map ClusterSubnetSpec.zone).dedup

/-- Embedding of the second `switch lbSpec.Type` in `Build` (lines 126-133),
which sets the load balancer's `Scheme` field. -/
def elbScheme (lbType : String) : Except String (Option String) :=
  if lbType = LoadBalancerTypeInternal then Except.ok (some "internal")
  else if lbType = LoadBalancerTypePublic then Except.ok none
  else Except.error ("unknown elb Type: \"" ++ lbType ++ "\"")

/-- The `elbSubnets` slice of `Build`: one chosen subnet link per zone, in map
iteration order (`zoneOrder`).  The per-zone candidate list reproduces the
append order of `subnetsByZone[zone]`, which is the kept list's source order. -/
def elbSubnetsFor (b : APILoadBalancerBuilder) (kept : List ClusterSubnetSpec)
    (zoneOrder : List String) : List String :=
  zoneOrder.filterMap (fun z =>
    (b.chooseBestSubnetForELB z (kept.filter (fun s => decide (s.zone = z)))).map
      ClusterSubnetSpec.name)

/-- The security-group-rule task emitted for one KubernetesAPIAccess CIDR
(lines 162-171). -/
def mkApiAccessRule (b : APILoadBalancerBuilder) (cidr : String) : SecurityGroupRuleTask :=
  { name := "https-api-elb-" ++ cidr
    securityGroup := b.elbSecurityGroupName
    egress := none
    cidr := some cidr
    sourceGroup := none
    fromPort := some 443
    toPort := some 443
    protocol := some "tcp" }

/-- The full task list appended by a successful `Build` pass, in `AddTask`
order: load balancer, its security group, the egress rule, one ingress rule
per API-access CIDR, the ELB-to-master rule, and one attachment per master
instance group. -/
def buildTaskList (b : APILoadBalancerBuilder) (lbSpec : LoadBalancerAccessSpec)
    (sch : Option String) (elbSubnets : List String) : List Task :=
  let idleTimeout : Int :=
    match lbSpec.idleTimeoutSeconds with
    | some n => n
    | none => 300
  [Task.loadBalancer
      { name := "api." ++ b.clusterName
        loadBalancerName := b.elbName32
        securityGroups := [b.elbSecurityGroupName]
        subnets := elbSubnets
        listeners := [("443", 443)]
        healthCheck :=
          { target := "TCP:443"
            timeout := 5
            interval := 10
            healthyThreshold := 2
            unhealthyThreshold := 2 }
        idleTimeout := idleTimeout
        scheme := sch },
    Task.securityGroup
      { name := b.elbSecurityGroupName
        vpc := b.vpcName
        description := "Security group for api ELB"
        removeExtraRules := ["port=443"] },
    Task.securityGroupRule
      { name := "api-elb-egress"
        securityGroup := b.elbSecurityGroupName
        egress := some true
        cidr := some "0.0.0.0/0"
        sourceGroup := none
        fromPort := none
        toPort := none
        protocol := none }]
  ++ b.kubernetesAPIAccess.map (fun cidr => Task.securityGroupRule (mkApiAccessRule b cidr))
  ++ [Task.securityGroupRule
      { name := "https-elb-to-master"
        securityGroup := b.masterSecurityGroupName
        egress := none
        cidr := none
        sourceGroup := some b.elbSecurityGroupName
        fromPort := some 443
        toPort := some 443
        protocol := some "tcp" }]
  ++ b.masterInstanceGroups.map (fun ig =>
      Task.loadBalancerAttachment
        { name := "api-" ++ ig.name
          loadBalancer := b.elbLinkName
          autoscalingGroup := b.autoscalingGroupName ig.name })

/-- Embedding of `APILoadBalancerBuilder.Build`.  `zoneOrder` is the iteration
order of the Go map `subnetsByZone`; a real execution has `zoneOrder` a
permutation of `zonesOf kept`.  The result is `Except.error e` exactly when the
source returns a non-nil error, and since every error return in the source
precedes every `c.AddTask` call, an error result carries zero emitted tasks. -/
def APILoadBalancerBuilder.Build (b : APILoadBalancerBuilder) (zoneOrder : List String) :
    Except String (List Task) :=
  if b.useLoadBalancerForAPI = false then Except.ok []
  else
    match b.loadBalancer with
    | none => Except.ok []
    | some lbSpec =>
      if lbSpec.type = LoadBalancerTypeInternal ∨ lbSpec.type = LoadBalancerTypePublic then
        match filterSubnetsForLB lbSpec.type b.subnets with
        | Except.error e => Except.error e
        | Except.ok kept =>
          match elbScheme lbSpec.type with
          | Except.error e => Except.error e
          | Except.ok sch =>
            Except.ok (buildTaskList b lbSpec sch (elbSubnetsFor b kept zoneOrder))
      else
        Except.error ("unhandled LoadBalancer type \"" ++ lbSpec.type ++ "\"")

instance {ε α : Type} [DecidableEq ε] [DecidableEq α] : DecidableEq (Except ε α) := fun a b =>
  match a, b with
  | Except.ok x, Except.ok y => decidable_of_iff (x = y) (by simp)
  | Except.error x, Except.error y => decidable_of_iff (x = y) (by simp)
  | Except.ok _, Except.error _ => isFalse (by simp)
  | Except.error _, Except.ok _ => isFalse (by simp)

/-- Subnet list of the load-balancer task of a build result, when the result is
success and the first task is the load balancer (as `Build` emits it). -/
def firstLoadBalancerSubnets (r : Except String (List Task)) : Option (List String) :=
  match r with
  | Except.ok (Task.loadBalancer lb :: _) => some lb.subnets
  | _ => none

/-- Scheme field of the load-balancer task at the head of a task list. -/
def firstLoadBalancerScheme (tasks : List Task) : Option (Option String) :=
  match tasks with
  | Task.loadBalancer lb :: _ => some lb.scheme
  | _ => none

/-- Recognizes the ingress rules emitted from `KubernetesAPIAccess` CIDRs:
among the rules this builder emits, exactly those are non-egress and carry a
CIDR (the egress rule sets `Egress`, the ELB-to-master rule uses a source
group instead of a CIDR). -/
def isApiAccessIngressRule (r : SecurityGroupRuleTask) : Bool :=
  r.egress.isNone && r.cidr.isSome

/-- Extracts an API-access ingress rule from a task, when the task is one. -/
def extractApiRule (t : Task) : Option SecurityGroupRuleTask :=
  match t with
  | Task.securityGroupRule r => if isApiAccessIngressRule r then some r else none
  | _ => none

/-- The API-access ingress rule tasks of a task list, in emission order. -/
def apiIngressRules (tasks : List Task) : List SecurityGroupRuleTask :=
  tasks.filterMap extractApiRule

/-- Concrete cluster for the end-to-end tie-break scenario: subnet A of type
Utility and subnet B of type Public share zone us-east-1a, the load balancer is
public, and the single master instance group is attached to subnet B. -/
def scenarioBuilder : APILoadBalancerBuilder :=
  { useLoadBalancerForAPI := true
    loadBalancer := some { type := "Public", idleTimeoutSeconds := none }
    subnets := [{ name := "A", zone := "us-east-1a", type := "Utility" },
                { name := "B", zone := "us-east-1a", type := "Public" }]
    kubernetesAPIAccess := []
    masterInstanceGroups := [{ name := "master-us-east-1a", subnets := ["B"] }]
    clusterName := "example.com"
    elbName32 := "api-example-com"
    elbSecurityGroupName := "api-elb.example.com"
    masterSecurityGroupName := "masters.example.com"
    vpcName := "vpc"
    elbLinkName := "api"
    autoscalingGroupName := id }

/-- Concrete cluster with compatible subnets in two different zones, used to
exhibit the dependence of the emitted subnet order on the iteration order of
the Go map `subnetsByZone`. -/
def twoZoneBuilder : APILoadBalancerBuilder :=
  { scenarioBuilder with
    subnets := [{ name := "s1", zone := "za", type := "Public" },
                { name := "s2", zone := "zb", type := "Public" }]
    masterInstanceGroups := [] }

/-- Concrete cluster with load-balancer usage disabled. -/
def disabledBuilder : APILoadBalancerBuilder :=
  { scenarioBuilder with useLoadBalancerForAPI := false }

/-- Concrete cluster whose load-balancer type is not a recognized value. -/
def badTypeBuilder : APILoadBalancerBuilder :=
  { scenarioBuilder with loadBalancer := some { type := "Foo", idleTimeoutSeconds := none } }

/-- Concrete cluster with two API-access CIDRs and no compatible subnet
ordering concerns (a single zone). -/
def cidrBuilder : APILoadBalancerBuilder :=
  { scenarioBuilder with kubernetesAPIAccess := ["10.0.0.0/8", "192.168.1.0/24"] }

/-- Concrete public-load-balancer cluster whose only subnet is Private, so no
zone has a compatible subnet. -/
def incompatibleBuilder : APILoadBalancerBuilder :=
  { scenarioBuilder with subnets := [{ name := "p", zone := "z", type := "Private" }] }

/-- Concrete internal-load-balancer cluster with one Private subnet. -/
def internalBuilder : APILoadBalancerBuilder :=
  { scenarioBuilder with
    loadBalancer := some { type := "Internal", idleTimeoutSeconds := none }
    subnets := [{ name := "p", zone := "z", type := "Private" }] }

/-- The task list `Build` emits for `cidrBuilder` with its single zone. -/
def cidrTasks : List Task := (cidrBuilder.Build ["us-east-1a"]).toOption.getD []

/-- The task list `Build` emits for `internalBuilder` with its single zone. -/
def internalTasks : List Task := (internalBuilder.Build ["z"]).toOption.getD []

/-! ### Order facts about the embedded string comparator -/

theorem charListLtB_cons (a b : Char) (as bs : List Char) :
    charListLtB (a :: as) (b :: bs) =
      (decide (a.toNat < b.toNat) || (decide (a.toNat = b.toNat) && charListLtB as bs)) := by
  simp only [charListLtB]
  rcases Nat.lt_trichotomy a.toNat b.toNat with h | h | h
  · simp [h, Nat.lt_asymm h]
  · simp [h]
  · rw [if_neg (show ¬a.toNat < b.toNat by omega), if_pos h]
    simp [show ¬a.toNat < b.toNat by omega, show ¬a.toNat = b.toNat by omega]

theorem charListLtB_irrefl : ∀ l : List Char, charListLtB l l = false
  | [] => rfl
  | a :: as => by
    rw [charListLtB_cons]
    simp [charListLtB_irrefl as]

theorem charListLtB_asymm (l₁ l₂ : List Char) (h : charListLtB l₁ l₂ = true) :
    charListLtB l₂ l₁ = false := by
  induction l₁ generalizing l₂ with
  | nil =>
    cases l₂ with
    | nil => rfl
    | cons b bs => rfl
  | cons a as ih =>
    cases l₂ with
    | nil => exact absurd h (by simp [charListLtB])
    | cons b bs =>
      rw [charListLtB_cons] at h ⊢
      simp only [Bool.or_eq_true, Bool.and_eq_true, decide_eq_true_eq] at h
      rcases h with h | ⟨he, hr⟩
      · simp [show ¬b.toNat < a.toNat by omega, show ¬b.toNat = a.toNat by omega]
      · simp [show ¬b.toNat < a.toNat by omega, show b.toNat = a.toNat by omega, ih bs hr]

theorem charListLtB_trans (l₁ l₂ l₃ : List Char) (h₁ : charListLtB l₁ l₂ = true)
    (h₂ : charListLtB l₂ l₃ = true) : charListLtB l₁ l₃ = true := by
  induction l₁ generalizing l₂ l₃ with
  | nil =>
    cases l₃ with
    | nil => cases l₂ <;> simp [charListLtB] at h₂
    | cons c cs => rfl
  | cons a as ih =>
    cases l₂ with
    | nil => simp [charListLtB] at h₁
    | cons b bs =>
      cases l₃ with
      | nil => simp [charListLtB] at h₂
      | cons c cs =>
        rw [charListLtB_cons] at h₁ h₂ ⊢
        simp only [Bool.or_eq_true, Bool.and_eq_true, decide_eq_true_eq] at h₁ h₂ ⊢
        rcases h₁ with h₁ | ⟨e₁, r₁⟩ <;> rcases h₂ with h₂ | ⟨e₂, r₂⟩
        · left; omega
        · left; omega
        · left; omega
        · right; exact ⟨by omega, ih bs cs r₁ r₂⟩

theorem charListLtB_eq_of_both_false (l₁ l₂ : List Char) (h₁ : charListLtB l₁ l₂ = false)
    (h₂ : charListLtB l₂ l₁ = false) : l₁ = l₂ := by
  induction l₁ generalizing l₂ with
  | nil =>
    cases l₂ with
    | nil => rfl
    | cons b bs => simp [charListLtB] at h₁
  | cons a as ih =>
    cases l₂ with
    | nil => simp [charListLtB] at h₂
    | cons b bs =>
      rw [charListLtB_cons] at h₁ h₂
      simp only [Bool.or_eq_false_iff, Bool.and_eq_false_iff, decide_eq_false_iff_not] at h₁ h₂
      obtain ⟨hlt₁, hr₁⟩ := h₁
      obtain ⟨hlt₂, hr₂⟩ := h₂
      have hn : a.toNat = b.toNat := by omega
      have ha : a = b := by
        have h3 := congrArg Char.ofNat hn
        rwa [Char.ofNat_toNat, Char.ofNat_toNat] at h3
      have htail : as = bs :=
        ih bs (hr₁.resolve_left (by simp [hn])) (hr₂.resolve_left (by simp [hn]))
      rw [ha, htail]

theorem charListLtB_false_trans (l₁ l₂ l₃ : List Char) (h₁ : charListLtB l₁ l₂ = false)
    (h₂ : charListLtB l₂ l₃ = false) : charListLtB l₁ l₃ = false := by
  by_cases h : charListLtB l₁ l₃ = true
  · by_cases h32 : charListLtB l₃ l₂ = true
    · have h12 := charListLtB_trans _ _ _ h h32
      rw [h₁] at h12
      cases h12
    · have hEq : l₂ = l₃ :=
        charListLtB_eq_of_both_false _ _ h₂ (by simpa using h32)
      rw [hEq] at h₁
      rw [h] at h₁
      cases h₁
  · simpa using h

theorem string_eq_of_data_eq {a b : String} (h : a.data = b.data) : a = b := by
  cases a
  cases b
  exact congrArg String.mk h

theorem strLtB_irrefl (s : String) : strLtB s s = false := charListLtB_irrefl _

theorem strLtB_asymm {a b : String} (h : strLtB a b = true) : strLtB b a = false :=
  charListLtB_asymm _ _ h

theorem strLtB_false_trans {a b c : String} (h₁ : strLtB a b = false)
    (h₂ : strLtB b c = false) : strLtB a c = false :=
  charListLtB_false_trans _ _ _ h₁ h₂

theorem strLtB_eq_of_both_false {a b : String} (h₁ : strLtB a b = false)
    (h₂ : strLtB b a = false) : a = b :=
  string_eq_of_data_eq (charListLtB_eq_of_both_false _ _ h₁ h₂)

/-! ### The sort order used by `ByScoreDescending` -/

theorem scoredLE_iff (a b : scoredSubnet) :
    scoredLE a b ↔
      b.score < a.score ∨ (a.score = b.score ∧ strLtB b.subnet.name a.subnet.name = false) := by
  unfold scoredLE scoredLess
  by_cases h : b.score = a.score
  · rw [if_neg (not_not_intro h)]
    constructor
    · intro hlt
      right
      exact ⟨h.symm, hlt⟩
    · rintro (hlt | ⟨_, hlt⟩)
      · exact absurd hlt (by omega)
      · exact hlt
  · rw [if_pos h]
    constructor
    · intro hx
      left
      cases hdec : decide (b.score < a.score) with
      | false => rw [hdec] at hx; cases hx
      | true => exact of_decide_eq_true hdec
    · rintro (hlt | ⟨heq, _⟩)
      · simp [hlt]
      · exact absurd heq (fun e => h e.symm)

theorem scoredLE_refl (a : scoredSubnet) : scoredLE a a := by
  rw [scoredLE_iff]
  right
  exact ⟨rfl, strLtB_irrefl _⟩

instance : IsTotal scoredSubnet scoredLE := ⟨by
  intro a b
  rw [scoredLE_iff, scoredLE_iff]
  rcases Nat.lt_trichotomy a.score b.score with h | h | h
  · right; left; exact h
  · cases hba : strLtB b.subnet.name a.subnet.name with
    | false => left; right; exact ⟨h, rfl⟩
    | true => right; right; exact ⟨h.symm, strLtB_asymm hba⟩
  · left; left; exact h⟩

instance : IsTrans scoredSubnet scoredLE := ⟨by
  intro a b c hab hbc
  rw [scoredLE_iff] at hab hbc ⊢
  rcases hab with h₁ | ⟨e₁, n₁⟩ <;> rcases hbc with h₂ | ⟨e₂, n₂⟩
  · left; omega
  · left; omega
  · left; omega
  · right; exact ⟨by omega, strLtB_false_trans n₂ n₁⟩⟩

/-! ### Properties of `chooseBestSubnetForELB` -/

theorem mem_scoredSubnetsOf {b : APILoadBalancerBuilder} {l : List ClusterSubnetSpec}
    {x : scoredSubnet} :
    x ∈ scoredSubnetsOf b l ↔
      ∃ s, s ∈ l ∧ ({ score := subnetScore b.migSubnets s, subnet := s } : scoredSubnet) = x := by
  rw [scoredSubnetsOf]
  exact List.mem_map

theorem sortedScoredSubnets_head_le {b : APILoadBalancerBuilder} {l : List ClusterSubnetSpec}
    {x : scoredSubnet} (hx : (sortedScoredSubnets b l).head? = some x)
    {y : scoredSubnet} (hy : y ∈ scoredSubnetsOf b l) : scoredLE x y := by
  have hperm : List.Perm (sortedScoredSubnets b l) (scoredSubnetsOf b l) :=
    List.perm_insertionSort scoredLE (scoredSubnetsOf b l)
  have hsorted : List.Sorted scoredLE (sortedScoredSubnets b l) :=
    List.sorted_insertionSort scoredLE (scoredSubnetsOf b l)
  have hy2 : y ∈ sortedScoredSubnets b l := hperm.mem_iff.2 hy
  cases hlist : sortedScoredSubnets b l with
  | nil => rw [hlist] at hx; cases hx
  | cons h0 t =>
    rw [hlist] at hx hy2 hsorted
    have hxh : h0 = x := by simpa using hx
    subst hxh
    rcases List.mem_cons.mp hy2 with rfl | hmem
    · exact scoredLE_refl _
    · exact List.rel_of_sorted_cons hsorted _ hmem

theorem chooseBest_spec {b : APILoadBalancerBuilder} {z : String} {l : List ClusterSubnetSpec}
    {s : ClusterSubnetSpec} (h : b.chooseBestSubnetForELB z l = some s) :
    s ∈ l ∧ ∀ t ∈ l,
      scoredLE { score := subnetScore b.migSubnets s, subnet := s }
        { score := subnetScore b.migSubnets t, subnet := t } := by
  cases l with
  | nil => simp [APILoadBalancerBuilder.chooseBestSubnetForELB] at h
  | cons u rest =>
    cases rest with
    | nil =>
      simp only [APILoadBalancerBuilder.chooseBestSubnetForELB, Option.some.injEq] at h
      subst h
      refine ⟨List.mem_singleton.2 rfl, ?_⟩
      intro t ht
      rcases List.mem_singleton.1 ht with rfl
      exact scoredLE_refl _
    | cons v rest2 =>
      unfold APILoadBalancerBuilder.chooseBestSubnetForELB at h
      rw [Option.map_eq_some'] at h
      obtain ⟨x, hx, hxs⟩ := h
      have hmemx : x ∈ sortedScoredSubnets b (u :: v :: rest2) := by
        cases hlist : sortedScoredSubnets b (u :: v :: rest2) with
        | nil => rw [hlist] at hx; cases hx
        | cons h0 t =>
          rw [hlist] at hx
          have h4 : h0 = x := by simpa using hx
          rw [← h4]
          exact List.mem_cons_self h0 t
      have hx_in : x ∈ scoredSubnetsOf b (u :: v :: rest2) :=
        (List.perm_insertionSort scoredLE (scoredSubnetsOf b (u :: v :: rest2))).mem_iff.1 hmemx
      obtain ⟨t0, ht0l, ht0eq⟩ := mem_scoredSubnetsOf.1 hx_in
      have hsx : x = { score := subnetScore b.migSubnets s, subnet := s } := by
        rw [← ht0eq] at hxs ⊢
        simp only at hxs
        rw [hxs]
      constructor
      · have : t0 = s := by rw [← hxs, ← ht0eq]
        rw [← this]
        exact ht0l
      · intro t ht
        have hle := sortedScoredSubnets_head_le hx
          (mem_scoredSubnetsOf.2 ⟨t, ht, rfl⟩)
        rw [hsx] at hle
        exact hle

theorem chooseBest_isSome {b : APILoadBalancerBuilder} {z : String}
    {l : List ClusterSubnetSpec} (h : l ≠ []) :
    (b.chooseBestSubnetForELB z l).isSome = true := by
  cases l with
  | nil => exact absurd rfl h
  | cons u rest =>
    cases rest with
    | nil => rfl
    | cons v rest2 =>
      unfold APILoadBalancerBuilder.chooseBestSubnetForELB
      have hlen : (sortedScoredSubnets b (u :: v :: rest2)).length = rest2.length + 2 := by
        have h1 := (List.perm_insertionSort scoredLE
          (scoredSubnetsOf b (u :: v :: rest2))).length_eq
        simpa [sortedScoredSubnets, scoredSubnetsOf] using h1
      cases hlist : sortedScoredSubnets b (u :: v :: rest2) with
      | nil => rw [hlist] at hlen; simp at hlen
      | cons h0 t => simp

theorem bestSubnet_unique {b : APILoadBalancerBuilder} {l : List ClusterSubnetSpec}
    (hnd : (l.map ClusterSubnetSpec.name).Nodup) {s₁ s₂ : ClusterSubnetSpec}
    (h₁ : s₁ ∈ l ∧ ∀ t ∈ l,
      scoredLE { score := subnetScore b.migSubnets s₁, subnet := s₁ }
        { score := subnetScore b.migSubnets t, subnet := t })
    (h₂ : s₂ ∈ l ∧ ∀ t ∈ l,
      scoredLE { score := subnetScore b.migSubnets s₂, subnet := s₂ }
        { score := subnetScore b.migSubnets t, subnet := t }) : s₁ = s₂ := by
  obtain ⟨m₁, le₁⟩ := h₁
  obtain ⟨m₂, le₂⟩ := h₂
  have a₁ := le₁ s₂ m₂
  have a₂ := le₂ s₁ m₁
  simp only [scoredLE_iff] at a₁ a₂
  rcases a₁ with h₁ | ⟨e₁, n₁⟩ <;> rcases a₂ with h₂ | ⟨e₂, n₂⟩
  · exact absurd h₁ (by omega)
  · exact absurd h₁ (by omega)
  · exact absurd h₂ (by omega)
  · exact List.inj_on_of_nodup_map hnd m₁ m₂ (strLtB_eq_of_both_false n₂ n₁)

theorem chooseBest_perm {b : APILoadBalancerBuilder} {z z' : String}
    {l l' : List ClusterSubnetSpec} (hp : List.Perm l l')
    (hnd : (l.map ClusterSubnetSpec.name).Nodup) :
    b.chooseBestSubnetForELB z l = b.chooseBestSubnetForELB z' l' := by
  rcases eq_or_ne l [] with rfl | hne
  · have h2 : l' = [] := hp.symm.eq_nil
    rw [h2]
    rfl
  · have hne' : l' ≠ [] := by
      intro h2
      rw [h2] at hp
      exact hne hp.eq_nil
    obtain ⟨s₁, hs₁⟩ := Option.isSome_iff_exists.1 (chooseBest_isSome (b := b) (z := z) hne)
    obtain ⟨s₂, hs₂⟩ := Option.isSome_iff_exists.1 (chooseBest_isSome (b := b) (z := z') hne')
    rw [hs₁, hs₂]
    have sp₁ := chooseBest_spec hs₁
    have sp₂ := chooseBest_spec hs₂
    have sp₂l : s₂ ∈ l ∧ ∀ t ∈ l,
        scoredLE { score := subnetScore b.migSubnets s₂, subnet := s₂ }
          { score := subnetScore b.migSubnets t, subnet := t } :=
      ⟨hp.mem_iff.2 sp₂.1, fun t ht => sp₂.2 t (hp.mem_iff.1 ht)⟩
    exact congrArg some (bestSubnet_unique hnd sp₁ sp₂l)

/-! ### Properties of the subnet-partitioning loop and of `Build` -/

theorem filterSubnetsForLB_ok (lbType : String) (l : List ClusterSubnetSpec)
    (h : ∀ s ∈ l, subnetTypeKnown s = true) :
    filterSubnetsForLB lbType l = Except.ok (l.filter (subnetCompatible lbType)) := by
  induction l with
  | nil => rfl
  | cons s rest ih =>
    have hrest := ih (fun t ht => h t (List.mem_cons_of_mem s ht))
    have hs := h s (List.mem_cons_self s rest)
    rw [filterSubnetsForLB, List.filter_cons]
    by_cases h1 : s.type = SubnetTypePublic ∨ s.type = SubnetTypeUtility
    · rw [if_pos h1]
      by_cases h2 : lbType = LoadBalancerTypePublic
      · rw [if_neg (not_not_intro h2), hrest]
        have hc : subnetCompatible lbType s = true := by
          rcases h1 with h1 | h1 <;> simp [subnetCompatible, h1, h2]
        rw [if_pos (by simp [hc])]
      · rw [if_pos h2, hrest]
        have hnp : ¬s.type = SubnetTypePrivate := by
          rcases h1 with h1 | h1 <;> rw [h1] <;> decide
        have hc : subnetCompatible lbType s = false := by
          simp [subnetCompatible, h2, hnp]
        rw [if_neg (by simp [hc])]
    · rw [if_neg h1]
      have hA : ¬s.type = SubnetTypePublic := fun hx => h1 (Or.inl hx)
      have hB : ¬s.type = SubnetTypeUtility := fun hx => h1 (Or.inr hx)
      by_cases h3 : s.type = SubnetTypePrivate
      · rw [if_pos h3]
        by_cases h4 : lbType = LoadBalancerTypeInternal
        · rw [if_neg (not_not_intro h4), hrest]
          have hc : subnetCompatible lbType s = true := by
            simp [subnetCompatible, h3, h4]
          rw [if_pos (by simp [hc])]
        · rw [if_pos h4, hrest]
          have hc : subnetCompatible lbType s = false := by
            simp [subnetCompatible, hA, hB, h4]
          rw [if_neg (by simp [hc])]
      · exfalso
        simp only [subnetTypeKnown, Bool.or_eq_true, decide_eq_true_eq] at hs
        rcases hs with (hx | hx) | hx
        · exact hA hx
        · exact hB hx
        · exact h3 hx

theorem filterSubnetsForLB_error (lbType : String) (pre : List ClusterSubnetSpec)
    (bad : ClusterSubnetSpec) (post : List ClusterSubnetSpec)
    (hpre : ∀ s ∈ pre, subnetTypeKnown s = true) (hbad : subnetTypeKnown bad = false) :
    filterSubnetsForLB lbType (pre ++ bad :: post) =
      Except.error ("subnet \"" ++ bad.name ++ "\" had unknown type \"" ++ bad.type ++ "\"") := by
  induction pre with
  | nil =>
    simp only [subnetTypeKnown, Bool.or_eq_false_iff, decide_eq_false_iff_not] at hbad
    obtain ⟨⟨hA, hB⟩, hC⟩ := hbad
    rw [List.nil_append, filterSubnetsForLB,
      if_neg (fun hx => hx.elim hA hB), if_neg hC]
  | cons s pre2 ih =>
    have hs := hpre s (List.mem_cons_self s pre2)
    have ihres := ih (fun t ht => hpre t (List.mem_cons_of_mem s ht))
    rw [List.cons_append, filterSubnetsForLB]
    have hk : (s.type = SubnetTypePublic ∨ s.type = SubnetTypeUtility)
        ∨ s.type = SubnetTypePrivate := by
      simp only [subnetTypeKnown, Bool.or_eq_true, decide_eq_true_eq] at hs
      tauto
    rcases hk with h1 | h1
    · rw [if_pos h1]
      by_cases h2 : lbType = LoadBalancerTypePublic
      · rw [if_neg (not_not_intro h2), ihres]
      · rw [if_pos h2, ihres]
    · have hA : ¬s.type = SubnetTypePublic := by rw [h1]; decide
      have hB : ¬s.type = SubnetTypeUtility := by rw [h1]; decide
      rw [if_neg (fun hx => hx.elim hA hB), if_pos h1]
      by_cases h4 : lbType = LoadBalancerTypeInternal
      · rw [if_neg (not_not_intro h4), ihres]
      · rw [if_pos h4, ihres]

theorem elbScheme_internal : elbScheme LoadBalancerTypeInternal = Except.ok (some "internal") := by
  decide

theorem elbScheme_public : elbScheme LoadBalancerTypePublic = Except.ok none := by
  decide

theorem elbScheme_ok_of_valid {lbType : String}
    (h : lbType = LoadBalancerTypeInternal ∨ lbType = LoadBalancerTypePublic) :
    ∃ sch, elbScheme lbType = Except.ok sch := by
  rcases h with h | h <;> rw [h]
  · exact ⟨some "internal", elbScheme_internal⟩
  · exact ⟨none, elbScheme_public⟩

theorem build_ok {b : APILoadBalancerBuilder} {zoneOrder : List String}
    {lbSpec : LoadBalancerAccessSpec} {kept : List ClusterSubnetSpec} {sch : Option String}
    (huse : b.useLoadBalancerForAPI = true) (hlb : b.loadBalancer = some lbSpec)
    (hvalid : lbSpec.type = LoadBalancerTypeInternal ∨ lbSpec.type = LoadBalancerTypePublic)
    (hkept : filterSubnetsForLB lbSpec.type b.subnets = Except.ok kept)
    (hsch : elbScheme lbSpec.type = Except.ok sch) :
    b.Build zoneOrder = Except.ok (buildTaskList b lbSpec sch (elbSubnetsFor b kept zoneOrder)) := by
  unfold APILoadBalancerBuilder.Build
  rw [if_neg (by simp [huse]), hlb]
  dsimp only
  rw [if_pos hvalid, hkept]
  dsimp only
  rw [hsch]

theorem build_ok_inv {b : APILoadBalancerBuilder} {zoneOrder : List String}
    {lbSpec : LoadBalancerAccessSpec} {tasks : List Task}
    (huse : b.useLoadBalancerForAPI = true) (hlb : b.loadBalancer = some lbSpec)
    (h : b.Build zoneOrder = Except.ok tasks) :
    (lbSpec.type = LoadBalancerTypeInternal ∨ lbSpec.type = LoadBalancerTypePublic) ∧
    ∃ kept sch, filterSubnetsForLB lbSpec.type b.subnets = Except.ok kept ∧
      elbScheme lbSpec.type = Except.ok sch ∧
      tasks = buildTaskList b lbSpec sch (elbSubnetsFor b kept zoneOrder) := by
  unfold APILoadBalancerBuilder.Build at h
  rw [if_neg (by simp [huse]), hlb] at h
  dsimp only at h
  by_cases hvalid : lbSpec.type = LoadBalancerTypeInternal ∨ lbSpec.type = LoadBalancerTypePublic
  · rw [if_pos hvalid] at h
    refine ⟨hvalid, ?_⟩
    cases hkept : filterSubnetsForLB lbSpec.type b.subnets with
    | error e => rw [hkept] at h; cases h
    | ok kept =>
      rw [hkept] at h
      dsimp only at h
      cases hsch : elbScheme lbSpec.type with
      | error e => rw [hsch] at h; cases h
      | ok sch =>
        rw [hsch] at h
        exact ⟨kept, sch, rfl, rfl, (Except.ok.inj h).symm⟩
  · rw [if_neg hvalid] at h
    cases h

theorem firstLoadBalancerSubnets_build (b : APILoadBalancerBuilder)
    (lbSpec : LoadBalancerAccessSpec) (sch : Option String) (subs : List String) :
    firstLoadBalancerSubnets (Except.ok (buildTaskList b lbSpec sch subs)) = some subs := rfl

theorem firstLoadBalancerScheme_build (b : APILoadBalancerBuilder)
    (lbSpec : LoadBalancerAccessSpec) (sch : Option String) (subs : List String) :
    firstLoadBalancerScheme (buildTaskList b lbSpec sch subs) = some sch := rfl

theorem apiIngressRules_build (b : APILoadBalancerBuilder)
    (lbSpec : LoadBalancerAccessSpec) (sch : Option String) (subs : List String) :
    apiIngressRules (buildTaskList b lbSpec sch subs) =
      b.kubernetesAPIAccess.map (mkApiAccessRule b) := by
  unfold apiIngressRules buildTaskList
  simp only [List.filterMap_append, List.filterMap_map]
  have hcidr : List.filterMap
      (extractApiRule ∘ fun cidr => Task.securityGroupRule (mkApiAccessRule b cidr))
      b.kubernetesAPIAccess = List.map (mkApiAccessRule b) b.kubernetesAPIAccess := by
    rw [show (extractApiRule ∘ fun cidr => Task.securityGroupRule (mkApiAccessRule b cidr))
        = some ∘ mkApiAccessRule b from funext fun c => rfl]
    exact congrFun (List.filterMap_eq_map (mkApiAccessRule b)) _
  have hattach : List.filterMap
      (extractApiRule ∘ fun ig => Task.loadBalancerAttachment
        { name := "api-" ++ ig.name
          loadBalancer := b.elbLinkName
          autoscalingGroup := b.autoscalingGroupName ig.name })
      b.masterInstanceGroups = [] :=
    List.filterMap_eq_nil_iff.2 (fun x _ => rfl)
  rw [hcidr, hattach]
  simp [extractApiRule, isApiAccessIngressRule]

theorem apiRuleName_inj {c₁ c₂ : String}
    (h : "https-api-elb-" ++ c₁ = "https-api-elb-" ++ c₂) : c₁ = c₂ := by
  have h2 := congrArg String.data h
  simp only [String.data_append] at h2
  exact string_eq_of_data_eq (List.append_cancel_left h2)

theorem mkApiAccessRule_inj (b : APILoadBalancerBuilder) :
    Function.Injective (mkApiAccessRule b) := by
  intro c₁ c₂ h
  have h2 := congrArg SecurityGroupRuleTask.cidr h
  simpa [mkApiAccessRule] using h2

theorem filter_zone_ne_nil {kept : List ClusterSubnetSpec} {z : String}
    (hz : z ∈ zonesOf kept) : kept.filter (fun s => decide (s.zone = z)) ≠ [] := by
  rw [zonesOf, List.mem_dedup] at hz
  obtain ⟨s, hs, hsz⟩ := List.mem_map.1 hz
  intro hnil
  have hmem : s ∈ kept.filter (fun s => decide (s.zone = z)) :=
    List.mem_filter.2 ⟨hs, by simp [hsz]⟩
  rw [hnil] at hmem
  exact (List.not_mem_nil s) hmem

/-! ### Claim theorems -/

/-- Claim C1 (refuted, code bug): two independent `Build` passes need not be
byte-identical.  `Build` iterates the Go map `subnetsByZone` at lines 85-89,
and Go map iteration order is randomized; both `["za", "zb"]` and
`["zb", "za"]` are permutations of the key set of that map for this cluster,
yet they yield load-balancer tasks whose `Subnets` lists differ, so two runs of
the same binary can emit different task sets for the same specification. -/
theorem build_depends_on_zone_iteration_order :
    List.Perm ["za", "zb"]
      (zonesOf (twoZoneBuilder.subnets.filter (subnetCompatible "Public"))) ∧
    List.Perm ["zb", "za"]
      (zonesOf (twoZoneBuilder.subnets.filter (subnetCompatible "Public"))) ∧
    firstLoadBalancerSubnets (twoZoneBuilder.Build ["za", "zb"]) = some ["s1", "s2"] ∧
    firstLoadBalancerSubnets (twoZoneBuilder.Build ["zb", "za"]) = some ["s2", "s1"] ∧
    twoZoneBuilder.Build ["za", "zb"] ≠ twoZoneBuilder.Build ["zb", "za"] :=
  ⟨by decide, by decide, by decide, by decide, by decide⟩

/-- Claim C2: on a candidate list of two or more same-zone subnets with
distinct names containing a tie at the top score, `chooseBestSubnetForELB`
returns a top-scored subnet whose name is lexically least among the top-scored
candidates, and the choice is invariant under every permutation of the input
list. -/
theorem chooseBest_tie_break_deterministic (b : APILoadBalancerBuilder) (z : String)
    (l : List ClusterSubnetSpec)
    (hz : ∀ s ∈ l, s.zone = z) (hlen : 2 ≤ l.length)
    (hnd : (l.map ClusterSubnetSpec.name).Nodup)
    (htie : ∃ s, s ∈ l ∧ ∃ t, t ∈ l ∧ s ≠ t ∧
      subnetScore b.migSubnets s = subnetScore b.migSubnets t ∧
      ∀ u ∈ l, subnetScore b.migSubnets u ≤ subnetScore b.migSubnets s) :
    ∃ s, b.chooseBestSubnetForELB z l = some s ∧ s ∈ l ∧
      (∀ u ∈ l, subnetScore b.migSubnets u ≤ subnetScore b.migSubnets s) ∧
      (∀ u ∈ l, subnetScore b.migSubnets u = subnetScore b.migSubnets s →
        strLtB u.name s.name = false) ∧
      ∀ l₂, List.Perm l₂ l →
        b.chooseBestSubnetForELB z l₂ = b.chooseBestSubnetForELB z l := by
  have hne : l ≠ [] := by
    intro h
    rw [h] at hlen
    simp at hlen
  obtain ⟨s, hs⟩ := Option.isSome_iff_exists.1 (chooseBest_isSome (b := b) (z := z) hne)
  obtain ⟨hmem, hle⟩ := chooseBest_spec hs
  refine ⟨s, hs, hmem, ?_, ?_, ?_⟩
  · intro u hu
    have h2 := hle u hu
    simp only [scoredLE_iff] at h2
    rcases h2 with h2 | ⟨e, _⟩
    · omega
    · omega
  · intro u hu he
    have h2 := hle u hu
    simp only [scoredLE_iff] at h2
    rcases h2 with h2 | ⟨_, n⟩
    · omega
    · exact n
  · intro l₂ hp
    exact chooseBest_perm hp ((hp.map ClusterSubnetSpec.name).nodup_iff.2 hnd)

/-- Witness for C2: the scenario cluster has two same-zone subnets with
distinct names tied at score 1, and the theorem applies to it. -/
theorem chooseBest_tie_break_deterministic_witness :
    (∀ s ∈ scenarioBuilder.subnets, s.zone = "us-east-1a") ∧
    2 ≤ scenarioBuilder.subnets.length ∧
    (scenarioBuilder.subnets.map ClusterSubnetSpec.name).Nodup ∧
    (∃ s, scenarioBuilder.chooseBestSubnetForELB "us-east-1a" scenarioBuilder.subnets
        = some s ∧
      s ∈ scenarioBuilder.subnets ∧
      (∀ u ∈ scenarioBuilder.subnets,
        subnetScore scenarioBuilder.migSubnets u ≤ subnetScore scenarioBuilder.migSubnets s) ∧
      (∀ u ∈ scenarioBuilder.subnets,
        subnetScore scenarioBuilder.migSubnets u = subnetScore scenarioBuilder.migSubnets s →
        strLtB u.name s.name = false) ∧
      ∀ l₂, List.Perm l₂ scenarioBuilder.subnets →
        scenarioBuilder.chooseBestSubnetForELB "us-east-1a" l₂ =
          scenarioBuilder.chooseBestSubnetForELB "us-east-1a" scenarioBuilder.subnets) :=
  ⟨by decide, by decide, by decide,
    chooseBest_tie_break_deterministic scenarioBuilder "us-east-1a" scenarioBuilder.subnets
      (by decide) (by decide) (by decide)
      ⟨{ name := "A", zone := "us-east-1a", type := "Utility" }, by decide,
        { name := "B", zone := "us-east-1a", type := "Public" }, by decide,
        by decide, by decide, by decide⟩⟩

/-- Claim C3: in the end-to-end scenario (subnet A Utility and subnet B Public
in zone us-east-1a, public load balancer, one master instance group on B),
both subnets score 1, the lexical tie-break picks A, and the emitted
load-balancer task carries exactly the one subnet link to A. -/
theorem build_tie_break_scenario :
    subnetScore scenarioBuilder.migSubnets
      { name := "A", zone := "us-east-1a", type := "Utility" } = 1 ∧
    subnetScore scenarioBuilder.migSubnets
      { name := "B", zone := "us-east-1a", type := "Public" } = 1 ∧
    scenarioBuilder.chooseBestSubnetForELB "us-east-1a" scenarioBuilder.subnets =
      some { name := "A", zone := "us-east-1a", type := "Utility" } ∧
    List.Perm ["us-east-1a"]
      (zonesOf (scenarioBuilder.subnets.filter (subnetCompatible "Public"))) ∧
    firstLoadBalancerSubnets (scenarioBuilder.Build ["us-east-1a"]) = some ["A"] :=
  ⟨by decide, by decide, by decide, by decide, by decide⟩

/-- Claim C4: a subnet in the master set and of type Utility scores 2, a
subnet meeting exactly one of the two conditions scores 1, a subnet meeting
neither scores 0, and the subnet returned by `chooseBestSubnetForELB` always
has a score at least that of every candidate in its list. -/
theorem subnet_scoring_monotone (migs : List String) (u v w : ClusterSubnetSpec)
    (hu : u.name ∈ migs ∧ u.type = SubnetTypeUtility)
    (hv : (v.name ∈ migs ∧ v.type ≠ SubnetTypeUtility) ∨
      (v.name ∉ migs ∧ v.type = SubnetTypeUtility))
    (hw : w.name ∉ migs ∧ w.type ≠ SubnetTypeUtility)
    (b : APILoadBalancerBuilder) (z : String) (l : List ClusterSubnetSpec)
    (s : ClusterSubnetSpec) (hsel : b.chooseBestSubnetForELB z l = some s)
    (t : ClusterSubnetSpec) (ht : t ∈ l) :
    subnetScore migs u = 2 ∧ subnetScore migs v = 1 ∧ subnetScore migs w = 0 ∧
    subnetScore b.migSubnets t ≤ subnetScore b.migSubnets s := by
  refine ⟨?_, ?_, ?_, ?_⟩
  · simp [subnetScore, hu.1, hu.2]
  · rcases hv with ⟨h1, h2⟩ | ⟨h1, h2⟩ <;> simp [subnetScore, h1, h2]
  · simp [subnetScore, hw.1, hw.2]
  · have h2 := (chooseBest_spec hsel).2 t ht
    simp only [scoredLE_iff] at h2
    rcases h2 with h2 | ⟨e, _⟩
    · omega
    · omega

/-- Witness for C4: concrete subnets meeting both, one, and neither condition,
and the concrete scenario selection. -/
theorem subnet_scoring_monotone_witness :
    ({ name := "B", zone := "z", type := "Utility" } : ClusterSubnetSpec).name ∈ ["B"] ∧
    subnetScore ["B"] { name := "B", zone := "z", type := "Utility" } = 2 ∧
    subnetScore ["B"] { name := "B", zone := "z", type := "Public" } = 1 ∧
    subnetScore ["B"] { name := "X", zone := "z", type := "Public" } = 0 ∧
    subnetScore scenarioBuilder.migSubnets
        { name := "B", zone := "us-east-1a", type := "Public" } ≤
      subnetScore scenarioBuilder.migSubnets
        { name := "A", zone := "us-east-1a", type := "Utility" } := by
  have h := subnet_scoring_monotone ["B"]
    { name := "B", zone := "z", type := "Utility" }
    { name := "B", zone := "z", type := "Public" }
    { name := "X", zone := "z", type := "Public" }
    (by decide) (by decide) (by decide)
    scenarioBuilder "us-east-1a" scenarioBuilder.subnets
    { name := "A", zone := "us-east-1a", type := "Utility" } (by decide)
    { name := "B", zone := "us-east-1a", type := "Public" } (by decide)
  exact ⟨by decide, h.1, h.2.1, h.2.2.1, h.2.2.2⟩

/-- Claim C5: when load-balancer usage for the API is disabled or the
LoadBalancer configuration is absent, `Build` succeeds and emits no task. -/
theorem build_noop_guard (b : APILoadBalancerBuilder) (zoneOrder : List String)
    (h : b.useLoadBalancerForAPI = false ∨ b.loadBalancer = none) :
    b.Build zoneOrder = Except.ok [] := by
  unfold APILoadBalancerBuilder.Build
  rcases h with h | h
  · rw [if_pos h]
  · by_cases h2 : b.useLoadBalancerForAPI = false
    · rw [if_pos h2]
    · rw [if_neg h2, h]

/-- Witness for C5: the disabled cluster builds to the empty task set. -/
theorem build_noop_guard_witness :
    (disabledBuilder.useLoadBalancerForAPI = false ∨ disabledBuilder.loadBalancer = none) ∧
    disabledBuilder.Build [] = Except.ok [] :=
  ⟨Or.inl rfl, build_noop_guard disabledBuilder [] (Or.inl rfl)⟩

/-- Claim C6: a load-balancer type other than Internal or Public, or a subnet
whose type is none of Public, Utility, Private, makes `Build` fail with an
error naming the offending value; both error returns precede every `AddTask`
call in the source, so an erroring pass emits zero tasks (an `Except.error`
result of the model carries no task list). -/
theorem build_rejects_unknown_types (b : APILoadBalancerBuilder) (zoneOrder : List String)
    (lbSpec : LoadBalancerAccessSpec)
    (huse : b.useLoadBalancerForAPI = true) (hlb : b.loadBalancer = some lbSpec) :
    (¬(lbSpec.type = LoadBalancerTypeInternal ∨ lbSpec.type = LoadBalancerTypePublic) →
      b.Build zoneOrder =
        Except.error ("unhandled LoadBalancer type \"" ++ lbSpec.type ++ "\"")) ∧
    (∀ pre bad post, b.subnets = pre ++ bad :: post →
      (∀ s ∈ pre, subnetTypeKnown s = true) → subnetTypeKnown bad = false →
      (lbSpec.type = LoadBalancerTypeInternal ∨ lbSpec.type = LoadBalancerTypePublic) →
      b.Build zoneOrder =
        Except.error ("subnet \"" ++ bad.name ++ "\" had unknown type \"" ++ bad.type ++ "\"")) := by
  constructor
  · intro hinvalid
    unfold APILoadBalancerBuilder.Build
    rw [if_neg (by simp [huse]), hlb]
    dsimp only
    rw [if_neg hinvalid]
  · intro pre bad post hsplit hpre hbad hvalid
    unfold APILoadBalancerBuilder.Build
    rw [if_neg (by simp [huse]), hlb]
    dsimp only
    rw [if_pos hvalid, hsplit,
      filterSubnetsForLB_error lbSpec.type pre bad post hpre hbad]

/-- Witness for C6: a cluster whose load-balancer type is the unrecognized
string Foo makes `Build` fail with the error naming Foo. -/
theorem build_rejects_unknown_types_witness :
    badTypeBuilder.useLoadBalancerForAPI = true ∧
    badTypeBuilder.loadBalancer = some { type := "Foo", idleTimeoutSeconds := none } ∧
    badTypeBuilder.Build [] = Except.error ("unhandled LoadBalancer type \"Foo\"") :=
  ⟨rfl, rfl,
    (build_rejects_unknown_types badTypeBuilder []
      { type := "Foo", idleTimeoutSeconds := none } rfl rfl).1 (by decide)⟩

/-- Claim C7: a successful `Build` emits, for each CIDR in the API-access
list, exactly one ingress rule permitting TCP 443 from that CIDR into the load
balancer's security group; the rule names derive solely from the CIDR strings,
distinct CIDRs get distinct names, and re-running `Build` with the same CIDRs
in any order reproduces the same rule names up to that order. -/
theorem api_access_ingress_rules (b : APILoadBalancerBuilder) (zoneOrder : List String)
    (tasks : List Task) (lbSpec : LoadBalancerAccessSpec)
    (huse : b.useLoadBalancerForAPI = true) (hlb : b.loadBalancer = some lbSpec)
    (hok : b.Build zoneOrder = Except.ok tasks)
    (hnd : b.kubernetesAPIAccess.Nodup)
    (c₁ c₂ : String) (hc₁ : c₁ ∈ b.kubernetesAPIAccess) (hc₂ : c₂ ∈ b.kubernetesAPIAccess)
    (hne : c₁ ≠ c₂) :
    apiIngressRules tasks = b.kubernetesAPIAccess.map (mkApiAccessRule b) ∧
    (∀ cidr ∈ b.kubernetesAPIAccess,
      (apiIngressRules tasks).count (mkApiAccessRule b cidr) = 1) ∧
    ("https-api-elb-" ++ c₁) ≠ ("https-api-elb-" ++ c₂) ∧
    (∀ (b₂ : APILoadBalancerBuilder) (zo₂ : List String) (tasks₂ : List Task)
      (lb₂ : LoadBalancerAccessSpec),
      b₂.useLoadBalancerForAPI = true → b₂.loadBalancer = some lb₂ →
      b₂.Build zo₂ = Except.ok tasks₂ →
      List.Perm b₂.kubernetesAPIAccess b.kubernetesAPIAccess →
      List.Perm ((apiIngressRules tasks₂).map SecurityGroupRuleTask.name)
        ((apiIngressRules tasks).map SecurityGroupRuleTask.name)) := by
  obtain ⟨hvalid, kept, sch, hkept, hsch, htasks⟩ := build_ok_inv huse hlb hok
  subst htasks
  have hchar := apiIngressRules_build b lbSpec sch (elbSubnetsFor b kept zoneOrder)
  refine ⟨hchar, ?_, ?_, ?_⟩
  · intro cidr hc
    rw [hchar, List.count_map_of_injective _ _ (mkApiAccessRule_inj b)]
    exact List.count_eq_one_of_mem hnd hc
  · intro h
    exact hne (apiRuleName_inj h)
  · intro b₂ zo₂ tasks₂ lb₂ huse₂ hlb₂ hok₂ hperm
    obtain ⟨hvalid₂, kept₂, sch₂, hkept₂, hsch₂, htasks₂⟩ := build_ok_inv huse₂ hlb₂ hok₂
    subst htasks₂
    rw [apiIngressRules_build, hchar]
    simp only [List.map_map]
    rw [show (SecurityGroupRuleTask.name ∘ mkApiAccessRule b₂)
        = (fun c => "https-api-elb-" ++ c) from funext fun c => rfl,
      show (SecurityGroupRuleTask.name ∘ mkApiAccessRule b)
        = (fun c => "https-api-elb-" ++ c) from funext fun c => rfl]
    exact hperm.map _

/-- Witness for C7: the cluster with the two CIDRs from the scenario emits
exactly the two derived ingress rules. -/
theorem api_access_ingress_rules_witness :
    cidrBuilder.Build ["us-east-1a"] = Except.ok cidrTasks ∧
    cidrBuilder.kubernetesAPIAccess.Nodup ∧
    apiIngressRules cidrTasks =
      cidrBuilder.kubernetesAPIAccess.map (mkApiAccessRule cidrBuilder) ∧
    ("https-api-elb-" ++ "10.0.0.0/8") ≠ ("https-api-elb-" ++ "192.168.1.0/24") := by
  have h := api_access_ingress_rules cidrBuilder ["us-east-1a"] cidrTasks
    { type := "Public", idleTimeoutSeconds := none } rfl rfl (by decide) (by decide)
    "10.0.0.0/8" "192.168.1.0/24" (by decide) (by decide) (by decide)
  exact ⟨by decide, by decide, h.1, h.2.2.1⟩

/-- Claim C8: zones without a compatible subnet are not an error: with a valid
load-balancer type and only recognized subnet types, `Build` succeeds, and if
no subnet at all is compatible the load-balancer task simply carries an empty
subnet list. -/
theorem build_allows_empty_subnet_selection (b : APILoadBalancerBuilder)
    (zoneOrder : List String) (lbSpec : LoadBalancerAccessSpec)
    (huse : b.useLoadBalancerForAPI = true) (hlb : b.loadBalancer = some lbSpec)
    (hvalid : lbSpec.type = LoadBalancerTypeInternal ∨ lbSpec.type = LoadBalancerTypePublic)
    (hknown : ∀ s ∈ b.subnets, subnetTypeKnown s = true)
    (hperm : List.Perm zoneOrder (zonesOf (b.subnets.filter (subnetCompatible lbSpec.type)))) :
    (∃ tasks, b.Build zoneOrder = Except.ok tasks) ∧
    (b.subnets.filter (subnetCompatible lbSpec.type) = [] →
      firstLoadBalancerSubnets (b.Build zoneOrder) = some []) := by
  obtain ⟨sch, hsch⟩ := elbScheme_ok_of_valid hvalid
  have hkept := filterSubnetsForLB_ok lbSpec.type b.subnets hknown
  have hb := @build_ok b zoneOrder lbSpec
    (b.subnets.filter (subnetCompatible lbSpec.type)) sch huse hlb hvalid hkept hsch
  constructor
  · exact ⟨_, hb⟩
  · intro hempty
    have hzo : zoneOrder = [] := by
      rw [hempty] at hperm
      exact hperm.eq_nil
    rw [hb, firstLoadBalancerSubnets_build, hzo]
    rfl

/-- Witness for C8: a public load balancer over a single Private subnet has no
compatible subnet anywhere, yet `Build` succeeds with an empty subnet list. -/
theorem build_allows_empty_subnet_selection_witness :
    (∀ s ∈ incompatibleBuilder.subnets, subnetTypeKnown s = true) ∧
    incompatibleBuilder.subnets.filter (subnetCompatible "Public") = [] ∧
    (∃ tasks, incompatibleBuilder.Build [] = Except.ok tasks) ∧
    firstLoadBalancerSubnets (incompatibleBuilder.Build []) = some [] := by
  have h := build_allows_empty_subnet_selection incompatibleBuilder []
    { type := "Public", idleTimeoutSeconds := none } rfl rfl
    (by decide) (by decide) (by decide)
  exact ⟨by decide, by decide, h.1, h.2 (by decide)⟩

/-- Claim C9: along the `Build` call path, `chooseBestSubnetForELB` only ever
receives the per-zone candidate lists of zones present in `subnetsByZone`,
which are non-empty, so its nil branch is unreachable from `Build`; and the
post-sort accesses at indices 0 and 1 happen only for candidate lists of
length at least two, whose sorted image keeps that length, so they are in
bounds. -/
theorem chooseBest_callsite_safety (b : APILoadBalancerBuilder) (lbType : String)
    (kept : List ClusterSubnetSpec) (zoneOrder : List String) (z : String)
    (hkept : filterSubnetsForLB lbType b.subnets = Except.ok kept)
    (hperm : List.Perm zoneOrder (zonesOf kept)) (hz : z ∈ zoneOrder)
    (l₂ : List ClusterSubnetSpec) (hl₂ : 2 ≤ l₂.length) :
    kept.filter (fun s => decide (s.zone = z)) ≠ [] ∧
    (b.chooseBestSubnetForELB z (kept.filter (fun s => decide (s.zone = z)))).isSome = true ∧
    2 ≤ (sortedScoredSubnets b l₂).length := by
  have hz2 : z ∈ zonesOf kept := hperm.mem_iff.1 hz
  have hne := filter_zone_ne_nil hz2
  refine ⟨hne, chooseBest_isSome hne, ?_⟩
  have hlen : (sortedScoredSubnets b l₂).length = l₂.length := by
    have h1 := (List.perm_insertionSort scoredLE (scoredSubnetsOf b l₂)).length_eq
    simpa [sortedScoredSubnets, scoredSubnetsOf] using h1
  omega

/-- Witness for C9: the scenario cluster's single zone has a non-empty
candidate list, and its two-element list keeps length two after sorting. -/
theorem chooseBest_callsite_safety_witness :
    filterSubnetsForLB "Public" scenarioBuilder.subnets =
      Except.ok scenarioBuilder.subnets ∧
    scenarioBuilder.subnets.filter
      (fun s => decide (s.zone = "us-east-1a")) ≠ [] ∧
    (scenarioBuilder.chooseBestSubnetForELB "us-east-1a"
      (scenarioBuilder.subnets.filter
        (fun s => decide (s.zone = "us-east-1a")))).isSome = true ∧
    2 ≤ (sortedScoredSubnets scenarioBuilder scenarioBuilder.subnets).length := by
  have h := chooseBest_callsite_safety scenarioBuilder "Public" scenarioBuilder.subnets
    ["us-east-1a"] "us-east-1a" (by decide) (by decide) (by decide)
    scenarioBuilder.subnets (by decide)
  exact ⟨by decide, h.1, h.2.1, h.2.2⟩

/-- Claim C10: on a successful `Build`, the load-balancer task's scheme is the
string internal exactly for an internal load balancer and absent (nil) for a
public one, and for any type that passed the earlier validation the scheme
switch cannot reach its error branch. -/
theorem elb_scheme_assignment (b : APILoadBalancerBuilder) (zoneOrder : List String)
    (lbSpec : LoadBalancerAccessSpec) (tasks : List Task)
    (huse : b.useLoadBalancerForAPI = true) (hlb : b.loadBalancer = some lbSpec)
    (hok : b.Build zoneOrder = Except.ok tasks) :
    (lbSpec.type = LoadBalancerTypeInternal →
      firstLoadBalancerScheme tasks = some (some "internal")) ∧
    (lbSpec.type = LoadBalancerTypePublic →
      firstLoadBalancerScheme tasks = some none) ∧
    ((lbSpec.type = LoadBalancerTypeInternal ∨ lbSpec.type = LoadBalancerTypePublic) →
      ∃ sch, elbScheme lbSpec.type = Except.ok sch) := by
  obtain ⟨hvalid, kept, sch, hkept, hsch, htasks⟩ := build_ok_inv huse hlb hok
  subst htasks
  refine ⟨?_, ?_, fun h => elbScheme_ok_of_valid h⟩
  · intro hI
    rw [hI, elbScheme_internal] at hsch
    rw [firstLoadBalancerScheme_build, ← Except.ok.inj hsch]
  · intro hP
    rw [hP, elbScheme_public] at hsch
    rw [firstLoadBalancerScheme_build, ← Except.ok.inj hsch]

/-- Witness for C10: the internal cluster's load-balancer task carries the
scheme internal, and the scheme switch succeeds for its validated type. -/
theorem elb_scheme_assignment_witness :
    internalBuilder.Build ["z"] = Except.ok internalTasks ∧
    firstLoadBalancerScheme internalTasks = some (some "internal") ∧
    (∃ sch, elbScheme "Internal" = Except.ok sch) := by
  have h := elb_scheme_assignment internalBuilder ["z"]
    { type := "Internal", idleTimeoutSeconds := none } internalTasks rfl rfl (by decide)
  exact ⟨by decide, h.1 rfl, h.2.2 (Or.inl rfl)⟩

end KopsALB
